import Mathlib

/-!
Shallow embedding of the workflow stage controller of
src/frontend/src/pages/WorkflowPage.tsx (aideps-web-application).

The React component keeps three pieces of authoritative state:
`currentStage` (initialised from the route parameter via parseInt),
`completedStages` (a JS array of stage numbers), and `stageData`
(a JS object mapping stage numbers to opaque payloads, on which the
commented-out validateStage also reads the top-level truthy flags
fileUploaded, cleaningComplete and userConfirmed).

The event handlers handleNext, handleBack, handleStageClick and
handleStageDataChange are embedded as pure state transformers; the
awaited backend save inside handleNext is modelled by a Boolean
parameter saveOk (the try/catch skips both setState calls when the
awaited promise rejects).  Payload blobs are an opaque type parameter.
-/

namespace Aideps

/-- The stageData object: numeric keys written by handleStageDataChange,
plus the three truthy flags read by validateStage (absent = false). -/
structure StageData (α : Type) where
  entries : Int → Option α
  fileUploaded : Bool
  cleaningComplete : Bool
  userConfirmed : Bool

attribute [ext] StageData

/-- In-memory workflow state of WorkflowPage: currentStage,
completedStages (a JS array, duplicates possible), stageData. -/
structure WState (α : Type) where
  currentStage : Int
  completedStages : List Int
  stageData : StageData α

attribute [ext] WState

/-- stageData starts as the empty object. -/
def emptyData (α : Type) : StageData α :=
  { entries := fun _ => none
    fileUploaded := false
    cleaningComplete := false
    userConfirmed := false }

/-- A state with given currentStage and completedStages and empty stageData. -/
def mkState (α : Type) (c : Int) (completed : List Int) : WState α :=
  { currentStage := c, completedStages := completed, stageData := emptyData α }

/-- Fresh state: useState gives completedStages = [] and stageData = \x7b\x7d. -/
def initWState (α : Type) (c : Int) : WState α := mkState α c []

/-- stages.length in WorkflowPage.tsx: the stages array lists ids 1..7. -/
def stagesLength : Int := 7

/-- Digit run to a natural number, radix 10. -/
def digitsToNat (cs : List Char) : Nat :=
  cs.foldl (fun acc c => acc * 10 + (c.toNat - 48)) 0

/-- Model of JS parseInt on a radix-10 input: optional whitespace, optional
sign, then a leading digit run; none models NaN (no digits).  The hex-prefix
path of parseInt is not exercised by stage route parameters. -/
def parseIntJS (str : String) : Option Int :=
  let cs := str.data.dropWhile Char.isWhitespace
  let signed : Int × List Char :=
    match cs with
    | '-' :: t => (-1, t)
    | '+' :: t => (1, t)
    | _ => (1, cs)
  let digits := signed.2.takeWhile Char.isDigit
  if digits.isEmpty then none
  else some (signed.1 * (digitsToNat digits : Int))

/-- Initial currentStage: parseInt(stage || '1') on the route parameter
(undefined or the empty string fall back to '1'); none models NaN. -/
def initCurrentStage (routeStage : Option String) : Option Int :=
  match routeStage with
  | none => parseIntJS "1"
  | some str => if str = "" then parseIntJS "1" else parseIntJS str

/-- State effect of loadWorkflowData: the mock resume sets
completedStages = [1,2] and currentStage = 3 for the demo document. -/
def loadWorkflowResume (α : Type) (documentId : String) (s : WState α) : WState α :=
  if documentId = "demo" then
    { s with completedStages := [1, 2], currentStage := 3 }
  else s

/-- validateStage error list: switch (currentStage) pushing the
stage-specific message when the corresponding flag is falsy. -/
def validateStageErrors (α : Type) (s : WState α) : List String :=
  if s.currentStage = 1 then
    if s.stageData.fileUploaded then [] else ["Please upload a file before proceeding"]
  else if s.currentStage = 2 then
    if s.stageData.cleaningComplete then [] else ["Please complete data cleaning before proceeding"]
  else if s.currentStage = 6 then
    if s.stageData.userConfirmed then [] else ["Please confirm your selections before proceeding"]
  else []

/-- validateStage returns errors.length === 0. -/
def validateStage (α : Type) (s : WState α) : Bool :=
  (validateStageErrors α s).length == 0

/-- handleNext: the awaited saveStageData call comes first (saveOk models
its outcome; a rejection is caught and skips both setState calls); on
success the old currentStage is appended to completedStages, and
currentStage advances only while currentStage < stages.length.
Note: handleNext does NOT call validateStage; the call is commented out
in the source ("Skip validation for now to allow testing"). -/
def handleNext (α : Type) (saveOk : Bool) (s : WState α) : WState α :=
  if saveOk then
    { s with
      completedStages := s.completedStages ++ [s.currentStage]
      currentStage :=
        if s.currentStage < stagesLength then s.currentStage + 1 else s.currentStage }
  else s

/-- handleBack: decrement currentStage when currentStage > 1, else no-op. -/
def handleBack (α : Type) (s : WState α) : WState α :=
  if 1 < s.currentStage then { s with currentStage := s.currentStage - 1 } else s

/-- The navigation gate of handleStageClick:
completedStages.includes(stageNumber) || stageNumber === completedStages.length + 1. -/
def canEnterCode (α : Type) (s : WState α) (n : Int) : Bool :=
  s.completedStages.contains n || n == (s.completedStages.length : Int) + 1

/-- handleStageClick: set currentStage when the gate admits the stage,
otherwise only a toast message (state untouched). -/
def handleStageClick (α : Type) (n : Int) (s : WState α) : WState α :=
  if canEnterCode α s n then { s with currentStage := n } else s

/-- handleStageDataChange: stageData = \x7b...stageData, [currentStage]: data\x7d. -/
def handleStageDataChange (α : Type) (d : α) (s : WState α) : WState α :=
  { s with
    stageData :=
      { s.stageData with
        entries := fun k => if k = s.currentStage then some d else s.stageData.entries k } }

/-- Specification-side quantity, written from the spec for comparison with
the code's gate: max(completedStages ∪ \x7b0\x7d).  The specification's canEnter
rule admits exactly completedStages and this maximum plus one; the code's
gate (canEnterCode) uses the array length instead. -/
def maxCompleted (α : Type) (s : WState α) : Int :=
  s.completedStages.foldr max 0

/-- User-driven controller operations of WorkflowPage. -/
inductive Op (α : Type) where
  | next (saveOk : Bool)
  | back
  | click (n : Int)
  | record (d : α)

/-- One controller step. -/
def step (α : Type) (o : Op α) (s : WState α) : WState α :=
  match o with
  | .next saveOk => handleNext α saveOk s
  | .back => handleBack α s
  | .click n => handleStageClick α n s
  | .record d => handleStageDataChange α d s

/-- Run a sequence of controller operations. -/
def run (α : Type) (ops : List (Op α)) (s : WState α) : WState α :=
  ops.foldl (fun t o => step α o t) s

/-- The WorkflowPipeline component only ever emits clicks on stage ids 1..7. -/
def clickOk (α : Type) : Op α → Bool
  | .click n => decide (1 ≤ n) && decide (n ≤ 7)
  | _ => true

/-- Every click in the sequence targets a stage id in 1..7. -/
def ClickBounded (α : Type) (ops : List (Op α)) : Bool :=
  ops.all (clickOk α)

/-- States whose currentStage is in 1..7 and whose completed stages are all
in 1..7. -/
def stageInv (α : Type) (s : WState α) : Prop :=
  1 ≤ s.currentStage ∧ s.currentStage ≤ 7 ∧ ∀ m ∈ s.completedStages, 1 ≤ m ∧ m ≤ 7

lemma run_cons (α : Type) (o : Op α) (ops : List (Op α)) (s : WState α) :
    run α (o :: ops) s = run α ops (step α o s) := rfl

lemma handleNext_true (α : Type) (s : WState α) :
    handleNext α true s =
      { s with
        completedStages := s.completedStages ++ [s.currentStage]
        currentStage :=
          if s.currentStage < stagesLength then s.currentStage + 1 else s.currentStage } := rfl

lemma handleNext_false (α : Type) (s : WState α) : handleNext α false s = s := rfl

lemma stageInv_step (α : Type) (o : Op α) (s : WState α)
    (ho : clickOk α o = true) (h : stageInv α s) : stageInv α (step α o s) := by
  obtain ⟨h1, h2, h3⟩ := h
  cases o with
  | next saveOk =>
      cases saveOk with
      | false => exact ⟨h1, h2, h3⟩
      | true =>
          refine ⟨?_, ?_, ?_⟩
          · simp only [step, handleNext, stagesLength, if_true]
            split <;> omega
          · simp only [step, handleNext, stagesLength, if_true]
            split <;> omega
          · simp only [step, handleNext, stagesLength, if_true]
            intro m hm
            rcases List.mem_append.mp hm with hm | hm
            · exact h3 m hm
            · simp only [List.mem_singleton] at hm
              omega
  | back =>
      refine ⟨?_, ?_, ?_⟩
      · simp only [step, handleBack]
        split <;> (try dsimp only) <;> omega
      · simp only [step, handleBack]
        split <;> (try dsimp only) <;> omega
      · simp only [step, handleBack]
        split <;> exact h3
  | click n =>
      simp only [clickOk, Bool.and_eq_true, decide_eq_true_eq] at ho
      refine ⟨?_, ?_, ?_⟩
      · simp only [step, handleStageClick]
        split <;> (try dsimp only) <;> omega
      · simp only [step, handleStageClick]
        split <;> (try dsimp only) <;> omega
      · simp only [step, handleStageClick]
        split <;> exact h3
  | record d =>
      exact ⟨h1, h2, h3⟩

lemma stageInv_run (α : Type) (ops : List (Op α)) (s : WState α)
    (ho : ClickBounded α ops = true) (h : stageInv α s) : stageInv α (run α ops s) := by
  induction ops generalizing s with
  | nil => exact h
  | cons o ops ih =>
      simp only [ClickBounded, List.all_cons, Bool.and_eq_true] at ho
      rw [run_cons]
      exact ih (step α o s) (by simpa [ClickBounded] using ho.2) (stageInv_step α o s ho.1 h)

lemma stageInv_init (α : Type) (c : Int) (h1 : 1 ≤ c) (h2 : c ≤ 7) :
    stageInv α (initWState α c) := by
  refine ⟨h1, h2, ?_⟩
  intro m hm
  simp [initWState, mkState] at hm

end Aideps

namespace Aideps

/-- C1: the claim says clicking a previously completed earlier stage sets
currentStage to that stage and removes every later stage from
completedStages while retaining the payloads.  The code only performs the
first part: from completedStages = [1,2,3,4], handleStageClick 2 yields
currentStage = 2 but leaves completedStages = [1,2,3,4] (not [1]); the
cascading invalidation demanded by the repository's own workflow
architecture notes is absent from the code. -/
theorem C1_stageClick_no_invalidation :
    (handleStageClick Unit 2 (mkState Unit 5 [1, 2, 3, 4])).currentStage = 2
    ∧ (handleStageClick Unit 2 (mkState Unit 5 [1, 2, 3, 4])).completedStages = [1, 2, 3, 4]
    ∧ (handleStageClick Unit 2 (mkState Unit 5 [1, 2, 3, 4])).completedStages ≠ [1]
    ∧ (handleStageClick Unit 2 (mkState Unit 5 [1, 2, 3, 4])).stageData
        = (mkState Unit 5 [1, 2, 3, 4]).stageData :=
  ⟨by decide, by decide, by decide, rfl⟩

/-- C2 amended: the navigation gate admits targetStage exactly when it is a
member of completedStages or equals completedStages.length + 1 (the code
uses the array length, not max(completedStages ∪ \x7b0\x7d) + 1; the two agree
only while completedStages is duplicate-free of the form 1..k); admitted
clicks set currentStage to the target and refused clicks leave the state
unchanged; with completedStages = [1,2], entry to stage 5 is refused. -/
theorem C2_navigation_gate_amended :
    (∀ (s : WState Unit) (n : Int),
        (canEnterCode Unit s n = true ↔
          n ∈ s.completedStages ∨ n = (s.completedStages.length : Int) + 1)
        ∧ (canEnterCode Unit s n = true → (handleStageClick Unit n s).currentStage = n)
        ∧ (canEnterCode Unit s n = false → handleStageClick Unit n s = s))
    ∧ canEnterCode Unit (mkState Unit 3 [1, 2]) 5 = false := by
  constructor
  · intro s n
    refine ⟨?_, ?_, ?_⟩
    · simp [canEnterCode]
    · intro h
      simp [handleStageClick, h]
    · intro h
      simp [handleStageClick, h]
  · decide

/-- C2 counterexample: the reachable trace next, click 1, next produces
completedStages = [1,1]; the gate then admits stage 3 (3 = length + 1 and
the click sets currentStage = 3) although 3 is not completed and
max(completedStages ∪ \x7b0\x7d) + 1 = 2, refuting the claimed
max-based membership rule. -/
theorem C2_navigation_gate_counterexample :
    (run Unit [Op.next true, Op.click 1, Op.next true] (initWState Unit 1)).completedStages = [1, 1]
    ∧ canEnterCode Unit (run Unit [Op.next true, Op.click 1, Op.next true] (initWState Unit 1)) 3 = true
    ∧ (handleStageClick Unit 3
        (run Unit [Op.next true, Op.click 1, Op.next true] (initWState Unit 1))).currentStage = 3
    ∧ (3 : Int) ∉ (run Unit [Op.next true, Op.click 1, Op.next true] (initWState Unit 1)).completedStages
    ∧ maxCompleted Unit (run Unit [Op.next true, Op.click 1, Op.next true] (initWState Unit 1)) + 1 = 2 :=
  ⟨by decide, by decide, by decide, by decide, by decide⟩

/-- C2 witness: with completedStages = [1,2] the gate admits stage 3 and the
click moves currentStage there. -/
theorem C2_navigation_gate_witness :
    (handleStageClick Unit 3 (mkState Unit 3 [1, 2])).currentStage = 3 :=
  (C2_navigation_gate_amended.1 (mkState Unit 3 [1, 2]) 3).2.1 (by decide)

/-- C3: on a fresh stage-1 instance with no upload, validateStage reports
the unmet condition and returns false, yet handleNext (whose call to
validateStage is commented out in the source with a skip-for-testing note)
still marks stage 1 complete and advances to stage 2 — the code contradicts
its own validation logic, so the claimed ValidationFailed behaviour does
not hold. -/
theorem C3_validation_skipped :
    validateStageErrors Unit (initWState Unit 1) = ["Please upload a file before proceeding"]
    ∧ validateStage Unit (initWState Unit 1) = false
    ∧ (handleNext Unit true (initWState Unit 1)).completedStages = [1]
    ∧ (handleNext Unit true (initWState Unit 1)).currentStage = 2 :=
  ⟨rfl, rfl, by decide, by decide⟩

/-- C4 amended: completing a stage preserves the bound that every completed
stage is at most currentStage, and along every operation sequence from an
in-range initial stage all completed stages lie in 1..7; the unrestricted
invariant completedStages ⊆ \x7b1..currentStage\x7d fails because back
navigation lowers currentStage without shrinking completedStages. -/
theorem C4_completed_bounds_amended :
    (∀ (saveOk : Bool) (s : WState Unit),
        (∀ m ∈ s.completedStages, m ≤ s.currentStage) →
        ∀ m ∈ (handleNext Unit saveOk s).completedStages,
          m ≤ (handleNext Unit saveOk s).currentStage)
    ∧ (∀ (ops : List (Op Unit)) (c : Int), ClickBounded Unit ops = true → 1 ≤ c → c ≤ 7 →
        ∀ m ∈ (run Unit ops (initWState Unit c)).completedStages, 1 ≤ m ∧ m ≤ 7) := by
  constructor
  · intro saveOk s h m hm
    cases saveOk with
    | false => exact h m hm
    | true =>
        rw [handleNext_true] at hm ⊢
        dsimp only at hm ⊢
        rcases List.mem_append.mp hm with hm | hm
        · have := h m hm
          split <;> omega
        · simp only [List.mem_singleton] at hm
          split <;> omega
  · intro ops c hops h1 h2
    exact (stageInv_run Unit ops (initWState Unit c) hops (stageInv_init Unit c h1 h2)).2.2

/-- C4 counterexample: the trace next, next, back, back from a fresh
stage-1 instance ends with currentStage = 1 while stage 2 is still in
completedStages, so completedStages ⊆ \x7b1..currentStage\x7d is violated by
a reachable state. -/
theorem C4_completed_bounds_counterexample :
    (run Unit [Op.next true, Op.next true, Op.back, Op.back] (initWState Unit 1)).currentStage = 1
    ∧ (2 : Int) ∈ (run Unit [Op.next true, Op.next true, Op.back, Op.back]
        (initWState Unit 1)).completedStages
    ∧ ¬((2 : Int) ≤ (run Unit [Op.next true, Op.next true, Op.back, Op.back]
        (initWState Unit 1)).currentStage) :=
  ⟨by decide, by decide, by decide⟩

/-- C4 witness: completing stage 1 of an instance whose completed stages
respect the bound keeps the newly completed stage below currentStage. -/
theorem C4_completed_bounds_witness :
    (1 : Int) ≤ (handleNext Unit true (mkState Unit 1 [1])).currentStage :=
  C4_completed_bounds_amended.1 true (mkState Unit 1 [1]) (by decide) 1 (by decide)

/-- C5 amended: starting from an initial stage in 1..7 (clicks being on the
pipeline's stage ids 1..7), every operation sequence keeps currentStage in
1..7; the mock resume effect of loadWorkflowData also preserves the range;
and completing stage 7 from completedStages = [1..6] yields
completedStages = [1..7] with currentStage remaining 7.  The unrestricted
claim fails because initialization does not clamp the route parameter. -/
theorem C5_stage_range_amended :
    (∀ (ops : List (Op Unit)) (c : Int), ClickBounded Unit ops = true → 1 ≤ c → c ≤ 7 →
        1 ≤ (run Unit ops (initWState Unit c)).currentStage
        ∧ (run Unit ops (initWState Unit c)).currentStage ≤ 7)
    ∧ (∀ (documentId : String) (s : WState Unit),
        1 ≤ s.currentStage → s.currentStage ≤ 7 →
        1 ≤ (loadWorkflowResume Unit documentId s).currentStage
        ∧ (loadWorkflowResume Unit documentId s).currentStage ≤ 7)
    ∧ (handleNext Unit true (mkState Unit 7 [1, 2, 3, 4, 5, 6])).completedStages
        = [1, 2, 3, 4, 5, 6, 7]
    ∧ (handleNext Unit true (mkState Unit 7 [1, 2, 3, 4, 5, 6])).currentStage = 7 := by
  refine ⟨?_, ?_, by decide, by decide⟩
  · intro ops c hops h1 h2
    have h := stageInv_run Unit ops (initWState Unit c) hops (stageInv_init Unit c h1 h2)
    exact ⟨h.1, h.2.1⟩
  · intro doc s h1 h2
    simp only [loadWorkflowResume]
    split <;> (try dsimp only) <;> omega

/-- C5 counterexample: initialization parses the route parameter without
clamping, so the route stage string 9 yields currentStage = 9, outside
1..7. -/
theorem C5_stage_range_counterexample :
    initCurrentStage (some "9") = some 9 ∧ ¬((9 : Int) ≤ 7) :=
  ⟨rfl, by decide⟩

/-- C5 witness: one completion from a fresh stage-1 instance stays in
range. -/
theorem C5_stage_range_witness :
    1 ≤ (run Unit [Op.next true] (initWState Unit 1)).currentStage
    ∧ (run Unit [Op.next true] (initWState Unit 1)).currentStage ≤ 7 :=
  C5_stage_range_amended.1 [Op.next true] 1 (by decide) (by decide) (by decide)

/-- C6: the awaited save gates the whole state change of handleNext — when
the save fails the state is exactly unchanged (no partial advancement), and
only on success is the old currentStage appended to completedStages and
currentStage advanced (capped at stage 7). -/
theorem C6_save_before_advance :
    (∀ s : WState Unit, handleNext Unit false s = s)
    ∧ (∀ s : WState Unit,
        (handleNext Unit true s).completedStages = s.completedStages ++ [s.currentStage]
        ∧ (handleNext Unit true s).currentStage =
            (if s.currentStage < stagesLength then s.currentStage + 1 else s.currentStage)) :=
  ⟨fun _ => rfl, fun _ => ⟨rfl, rfl⟩⟩

/-- C6 witness: a failing save on a fresh stage-1 instance leaves it
untouched. -/
theorem C6_save_before_advance_witness :
    handleNext Unit false (initWState Unit 1) = initWState Unit 1 :=
  C6_save_before_advance.1 (initWState Unit 1)

/-- C7: completedStages is an array, not a set — completing a stage that is
already completed appends a duplicate (its count reaches 2 and the array
grows), and on the reachable state with completedStages = [1,1] the
length-based gate admits stage 3 even though
max(completedStages ∪ \x7b0\x7d) + 1 = 2, letting the user enter a stage
strictly beyond the furthest completed stage plus one. -/
theorem C7_duplicate_completion :
    (∀ s : WState Unit, s.currentStage ∈ s.completedStages →
        2 ≤ (handleNext Unit true s).completedStages.count s.currentStage
        ∧ (handleNext Unit true s).completedStages.length = s.completedStages.length + 1)
    ∧ ((run Unit [Op.next true, Op.click 1, Op.next true] (initWState Unit 1)).completedStages
          = [1, 1]
       ∧ (run Unit [Op.next true, Op.click 1, Op.next true]
            (initWState Unit 1)).completedStages.dedup.length
           < (run Unit [Op.next true, Op.click 1, Op.next true]
               (initWState Unit 1)).completedStages.length
       ∧ canEnterCode Unit (run Unit [Op.next true, Op.click 1, Op.next true]
            (initWState Unit 1)) 3 = true
       ∧ (handleStageClick Unit 3
            (run Unit [Op.next true, Op.click 1, Op.next true] (initWState Unit 1))).currentStage = 3
       ∧ maxCompleted Unit (run Unit [Op.next true, Op.click 1, Op.next true]
            (initWState Unit 1)) + 1 = 2) := by
  constructor
  · intro s hs
    constructor
    · rw [handleNext_true]
      dsimp only
      have h1 : 0 < s.completedStages.count s.currentStage := List.count_pos_iff.mpr hs
      have h2 : (s.completedStages ++ [s.currentStage]).count s.currentStage
          = s.completedStages.count s.currentStage + 1 := by simp
      rw [h2]
      omega
    · rw [handleNext_true]
      dsimp only
      simp [List.length_append]
  · exact ⟨by decide, by decide, by decide, by decide, by decide⟩

/-- C7 witness: re-completing stage 1 when it is already completed pushes
its count in completedStages to 2. -/
theorem C7_duplicate_completion_witness :
    2 ≤ (handleNext Unit true (mkState Unit 1 [1])).completedStages.count
          (mkState Unit 1 [1]).currentStage :=
  (C7_duplicate_completion.1 (mkState Unit 1 [1]) (by decide)).1

/-- C8: handleBack decrements currentStage by exactly one when
currentStage > 1 and is a no-op otherwise, and in every case it leaves
completedStages and stageData untouched; in particular from
completedStages = [1,2], currentStage = 3 it yields currentStage = 2 with
completedStages unchanged. -/
theorem C8_navigate_back :
    (∀ s : WState Unit, 1 < s.currentStage →
        (handleBack Unit s).currentStage = s.currentStage - 1)
    ∧ (∀ s : WState Unit, ¬1 < s.currentStage → handleBack Unit s = s)
    ∧ (∀ s : WState Unit, (handleBack Unit s).completedStages = s.completedStages
        ∧ (handleBack Unit s).stageData = s.stageData)
    ∧ (handleBack Unit (mkState Unit 3 [1, 2])).currentStage = 2
    ∧ (handleBack Unit (mkState Unit 3 [1, 2])).completedStages = [1, 2] := by
  refine ⟨?_, ?_, ?_, by decide, by decide⟩
  · intro s h
    simp [handleBack, h]
  · intro s h
    simp [handleBack, h]
  · intro s
    simp only [handleBack]
    split <;> exact ⟨rfl, rfl⟩

/-- C8 witness: navigating back from stage 3 lands on stage 2. -/
theorem C8_navigate_back_witness :
    (handleBack Unit (mkState Unit 3 [1, 2])).currentStage
      = (mkState Unit 3 [1, 2]).currentStage - 1 :=
  C8_navigate_back.1 (mkState Unit 3 [1, 2]) (by decide)

/-- C9: recording the same payload twice in a row for the current stage
yields the same instance as recording it once, and recording a payload
never changes currentStage or completedStages. -/
theorem C9_record_idempotent (α : Type) (s : WState α) (d : α) :
    handleStageDataChange α d (handleStageDataChange α d s) = handleStageDataChange α d s
    ∧ (handleStageDataChange α d s).currentStage = s.currentStage
    ∧ (handleStageDataChange α d s).completedStages = s.completedStages := by
  refine ⟨?_, rfl, rfl⟩
  simp only [handleStageDataChange]
  congr 1
  congr 1
  funext k
  by_cases hk : k = s.currentStage <;> simp [hk]

/-- C9 witness: double-recording on a fresh stage-1 instance equals a
single recording. -/
theorem C9_record_idempotent_witness :
    handleStageDataChange Unit () (handleStageDataChange Unit () (initWState Unit 1))
      = handleStageDataChange Unit () (initWState Unit 1) :=
  (C9_record_idempotent Unit (initWState Unit 1) ()).1

/-- C10: a stage click refused by the gate (the target is neither in
completedStages nor equal to completedStages.length + 1) leaves the whole
state — currentStage, completedStages and stageData — unchanged. -/
theorem C10_rejected_click_noop (s : WState Unit) (n : Int)
    (h1 : n ∉ s.completedStages) (h2 : n ≠ (s.completedStages.length : Int) + 1) :
    handleStageClick Unit n s = s := by
  have hc : canEnterCode Unit s n = false := by
    simp [canEnterCode, h1, h2]
  simp [handleStageClick, hc]

/-- C10 witness: clicking stage 5 on a fresh instance with no completed
stages is rejected and changes nothing. -/
theorem C10_rejected_click_witness :
    handleStageClick Unit 5 (mkState Unit 1 []) = mkState Unit 1 [] :=
  C10_rejected_click_noop (mkState Unit 1 []) 5 (by decide) (by decide)

end Aideps
